import Mathlib

/-!
Verification of the 2D wave-equation finite-difference solver in
`src/visualisation/w.py`.

Embedding conventions:
* Machine floating-point numbers are modelled by exact rationals `ℚ`.
* `numpy.sqrt` is modelled by `Rat.sqrt`, which agrees with the real square
  root on perfect rational squares; every concrete evaluation below only
  takes square roots of perfect squares (in particular `dt = sqrt(dt2)`
  inside the steppers, where `dt2 = dt^2` and `Rat.sqrt` is exact).
* 2D arrays of shape `(Nx+1) × (Ny+1)` are modelled as total functions
  `ℕ → ℕ → ℚ`; only indices `i ≤ Nx`, `j ≤ Ny` are meaningful.
* Python runtime failures (`IndexError` from `x[1]` on a length-1 array,
  `ZeroDivisionError` from `T/0.0`) are modelled with `Except`.
-/

namespace Wave2D

/-- Fixed reference speed: line 55 of `w.py` sets `c = 1` inside `solver`. -/
def c : ℚ := 1

/-- Line 56: `stability_limit = (1/float(c))*(1/sqrt(1/dx**2 + 1/dy**2))`. -/
def stability_limit (dx dy : ℚ) : ℚ :=
  (1 / c) * (1 / Rat.sqrt (1 / dx ^ 2 + 1 / dy ^ 2))

/-- Lines 57-62: timestep selection. Returns the effective `dt` together with
a flag recording whether the stability warning message was printed.
`if dt <= 0:` use `-dt` as a safety factor; `elif dt > stability_limit:`
print the warning and keep `dt` unchanged; otherwise keep `dt` silently. -/
def selectDt (lim dtArg : ℚ) : ℚ × Bool :=
  if dtArg ≤ 0 then ((-dtArg) * lim, false)
  else if lim < dtArg then (dtArg, true)
  else (dtArg, false)

/-- Python runtime errors reachable from the `solver` front matter. -/
inductive PyError where
  | indexError
  | zeroDivisionError
deriving DecidableEq

/-- Coordinate arrays and spacings produced by lines 45-50 of `w.py`. -/
structure Mesh where
  x : ℕ → ℚ
  y : ℕ → ℚ
  dx : ℚ
  dy : ℚ

/-- Lines 45-50: `x = linspace(0, Lx, Nx+1)` has points `x[i] = Lx*i/Nx`;
`dx = x[1] - x[0]` raises `IndexError` when the array has fewer than two
points, i.e. when `Nx < 1` (symmetrically for `y`). No other validation is
performed: `Lx ≤ 0` or `Ly ≤ 0` passes through silently. -/
def buildMesh (Lx Ly : ℚ) (Nx Ny : ℕ) : Except PyError Mesh :=
  if Nx < 1 ∨ Ny < 1 then Except.error PyError.indexError
  else Except.ok ⟨fun i => Lx * i / Nx, fun j => Ly * j / Ny, Lx / Nx, Ly / Ny⟩

/-- Helper: whether a mesh-building result is a success. -/
def meshOk (e : Except PyError Mesh) : Bool :=
  match e with
  | Except.ok _ => true
  | Except.error _ => false

/-- Line 63: `Nt = int(round(T/float(dt)))`; Python float division raises
`ZeroDivisionError` when `dt = 0`. -/
def computeNt (T dt : ℚ) : Except PyError ℤ :=
  if dt = 0 then Except.error PyError.zeroDivisionError
  else Except.ok (round (T / dt))

/-- The setup stage of `solver` (lines 45-63): build the mesh, select the
timestep, derive the step count. Returns the effective `dt` and `Nt`. -/
def solverSetup (Lx Ly : ℚ) (Nx Ny : ℕ) (dtArg T : ℚ) :
    Except PyError (ℚ × ℤ) := do
  let m ← buildMesh Lx Ly Nx Ny
  let lim := stability_limit m.dx m.dy
  let dtw := selectDt lim dtArg
  let Nt ← computeNt T dtw.1
  Except.ok (dtw.1, Nt)

/-- Line 165/166 of `w.py`: `im = i+1 if i == 0 else i-1` (mirrored lower
neighbour index, used for both axes). -/
def im (i : ℕ) : ℕ := if i = 0 then i + 1 else i - 1

/-- Line 167/168 of `w.py`: `ip = i-1 if i == Ix[-1] else i+1` (mirrored
upper neighbour index; `Ix[-1] = Nx`). -/
def ip (N i : ℕ) : ℕ := if i = N then i - 1 else i + 1

/-- Lines 148-191: `advance_scalar`. The Python function overwrites every
entry of the shape-`(Nx+1) × (Ny+1)` buffer `u` reading only `u_1`, `u_2`,
so the result is the pointwise function below; the prior content of `u` is
irrelevant. The boundary-zeroing block of the source (lines 181-189) is
commented out, so boundary points also get the mirrored-stencil update. -/
def advance_scalar (Nx Ny : ℕ) (u_1 u_2 : ℕ → ℕ → ℚ)
    (f : ℚ → ℚ → ℚ → ℚ) (x y t : ℕ → ℚ) (n : ℕ)
    (Cx2 Cy2 b : ℚ) (q : ℚ → ℚ → ℚ) (dt2 : ℚ)
    (V : ℚ → ℚ → ℚ) (step1 : Bool) (i j : ℕ) : ℚ :=
  let dt := Rat.sqrt dt2
  let Cx2e := if step1 then 0.25 * Cx2 * (1 + 0.5 * b * dt)
              else (0.5 / (1 + 0.5 * b * dt)) * Cx2
  let Cy2e := if step1 then 0.25 * Cy2 * (1 + 0.5 * b * dt)
              else (0.5 / (1 + 0.5 * b * dt)) * Cy2
  let dt2e := if step1 then 0.5 * dt2 * (1 + 0.5 * b * dt)
              else dt2 / (1 + 0.5 * b * dt)
  let D1 : ℚ := if step1 then 1 else 2 / (1 + 0.5 * b * dt)
  let D2 : ℚ := if step1 then 0 else (1 - 0.5 * b * dt) / (1 + 0.5 * b * dt)
  let q_xu_xx :=
    0.5 * (q (x i) (y j) + q (x (ip Nx i)) (y j)) * (u_1 (ip Nx i) j - u_1 i j)
    - 0.5 * (q (x i) (y j) + q (x (im i)) (y j)) * (u_1 i j - u_1 (im i) j)
  let q_yu_yy :=
    0.5 * (q (x i) (y j) + q (x i) (y (ip Ny j))) * (u_1 i (ip Ny j) - u_1 i j)
    - 0.5 * (q (x i) (y j) + q (x i) (y (im j))) * (u_1 i j - u_1 i (im j))
  D1 * u_1 i j - D2 * u_2 i j + Cx2e * q_xu_xx + Cy2e * q_yu_yy
    + dt2e * f (x i) (y j) (t n)
    + (if step1 then (1 - 0.5 * b * dt) * dt * V (x i) (y j) else 0)

/-- Lines 193-216: `advance_vectorized`. The interior slice `u[1:-1,1:-1]`
gets the constant-coefficient stencil (no `q`, no damping), then lines
207-215 zero out every boundary row/column, so the returned array is `0` at
`i ∈ {0, Nx}` or `j ∈ {0, Ny}` and the interior formula elsewhere. -/
def advance_vectorized (Nx Ny : ℕ) (u_1 u_2 f_a : ℕ → ℕ → ℚ)
    (Cx2 Cy2 dt2 : ℚ) (V : ℕ → ℕ → ℚ) (step1 : Bool) (i j : ℕ) : ℚ :=
  if i = 0 ∨ i = Nx ∨ j = 0 ∨ j = Ny then 0
  else
    let dt := Rat.sqrt dt2
    let Cx2e := if step1 then 0.5 * Cx2 else Cx2
    let Cy2e := if step1 then 0.5 * Cy2 else Cy2
    let dt2e := if step1 then 0.5 * dt2 else dt2
    let D1 : ℚ := if step1 then 1 else 2
    let D2 : ℚ := if step1 then 0 else 1
    let u_xx := u_1 (i - 1) j - 2 * u_1 i j + u_1 (i + 1) j
    let u_yy := u_1 i (j - 1) - 2 * u_1 i j + u_1 i (j + 1)
    D1 * u_1 i j - D2 * u_2 i j + Cx2e * u_xx + Cy2e * u_yy + dt2e * f_a i j
      + (if step1 then dt * V i j else 0)

/-- Parameters of one `solver` invocation, with `dt` the EFFECTIVE timestep
(after the selection of lines 57-62). -/
structure Params where
  Nx : ℕ
  Ny : ℕ
  Lx : ℚ
  Ly : ℚ
  dt : ℚ
  b : ℚ
  I : ℚ → ℚ → ℚ
  V : ℚ → ℚ → ℚ
  f : ℚ → ℚ → ℚ → ℚ
  q : ℚ → ℚ → ℚ

/-- Mesh coordinate `x[i] = Lx*i/Nx` (line 45). -/
def xc (P : Params) (i : ℕ) : ℚ := P.Lx * i / P.Nx

/-- Mesh coordinate `y[j] = Ly*j/Ny` (line 46). -/
def yc (P : Params) (j : ℕ) : ℚ := P.Ly * j / P.Ny

/-- Time mesh `t[n] = n*dt` (line 64: `t = linspace(0, Nt*dt, Nt+1)`). -/
def tg (P : Params) (n : ℕ) : ℚ := n * P.dt

/-- Spacing `dx = Lx/Nx` (line 49). -/
def dxm (P : Params) : ℚ := P.Lx / P.Nx

/-- Spacing `dy = Ly/Ny` (line 50). -/
def dym (P : Params) : ℚ := P.Ly / P.Ny

/-- Help variable `Cx2 = (c*dt/dx)**2` (line 65). -/
def Cx2 (P : Params) : ℚ := (c * P.dt / dxm P) ^ 2

/-- Help variable `Cy2 = (c*dt/dy)**2` (line 65). -/
def Cy2 (P : Params) : ℚ := (c * P.dt / dym P) ^ 2

/-- Help variable `dt2 = dt**2` (line 66). -/
def dt2 (P : Params) : ℚ := P.dt ^ 2

/-- The sequence of time levels computed by `solver` with
`version='scalar'`: level 0 is the `I` fill of `u_1` (lines 91-94); level 1
is the special first step (lines 106-108, `step1=True`, `u_2` still the
zero array); level `n+2` is the loop body at `n+1` (lines 124-128), which —
exactly as in the source — again passes `step1=True` to `advance_scalar`. -/
def scalarLevels (P : Params) : ℕ → ℕ → ℕ → ℚ
  | 0 => fun i j => P.I (xc P i) (yc P j)
  | 1 => advance_scalar P.Nx P.Ny (scalarLevels P 0) (fun _ _ => 0) P.f
      (xc P) (yc P) (tg P) 0 (Cx2 P) (Cy2 P) P.b P.q (dt2 P) P.V true
  | n + 2 => advance_scalar P.Nx P.Ny (scalarLevels P (n + 1))
      (scalarLevels P n) P.f (xc P) (yc P) (tg P) (n + 1) (Cx2 P) (Cy2 P)
      P.b P.q (dt2 P) P.V true

/-- The sequence of time levels computed by `solver` with
`version='vectorized'`: level 0 is the `I` fill (line 96); level 1 is the
first step (lines 111-115, `step1=True`, with `f_a` and `V_a` precomputed
on the mesh); level `n+2` is the loop body at `n+1` (lines 130-131,
`step1` defaulting to `False`, `V=None` unused). -/
def vectorizedLevels (P : Params) : ℕ → ℕ → ℕ → ℚ
  | 0 => fun i j => P.I (xc P i) (yc P j)
  | 1 => advance_vectorized P.Nx P.Ny (vectorizedLevels P 0) (fun _ _ => 0)
      (fun i j => P.f (xc P i) (yc P j) (tg P 0)) (Cx2 P) (Cy2 P) (dt2 P)
      (fun i j => P.V (xc P i) (yc P j)) true
  | n + 2 => advance_vectorized P.Nx P.Ny (vectorizedLevels P (n + 1))
      (vectorizedLevels P n)
      (fun i j => P.f (xc P i) (yc P j) (tg P (n + 1))) (Cx2 P) (Cy2 P)
      (dt2 P) (fun _ _ => 0) false

/-- The observer-invocation trace of the main loop (lines 124-139): for
`n = 1, ..., Nt-1` (here: `rem` remaining iterations, current index `n`),
the driver reports step index `n+1` and stops if `user_action` returns a
truthy value. -/
def loopOut (obs : (ℕ → ℕ → ℚ) → ℕ → Bool) (U : ℕ → ℕ → ℕ → ℚ) :
    ℕ → ℕ → List ℕ
  | _, 0 => []
  | n, rem + 1 =>
    (n + 1) :: (if obs (U (n + 1)) (n + 1) then [] else loopOut obs U (n + 1) rem)

/-- The full observer-invocation trace of `solver` given the level sequence
`U`: lines 98-99 report index 0 and lines 117-118 report index 1, both
WITHOUT looking at the return value; only the loop (lines 133-135) checks
the return value and may break. -/
def solverOutputs (obs : (ℕ → ℕ → ℚ) → ℕ → Bool) (U : ℕ → ℕ → ℕ → ℚ)
    (Nt : ℕ) : List ℕ :=
  0 :: 1 :: loopOut obs U 1 (Nt - 1)

/- Concrete test inputs used by counterexamples and witnesses. -/

/-- Field with a single unit value at index point `(0,1)`. -/
def uA : ℕ → ℕ → ℚ := fun i j => if i = 0 ∧ j = 1 then 1 else 0

/-- Field with a single unit value at index point `(1,1)`. -/
def uB : ℕ → ℕ → ℚ := fun i j => if i = 1 ∧ j = 1 then 1 else 0

/-- The all-zero field. -/
def zero2 : ℕ → ℕ → ℚ := fun _ _ => 0

/-- The zero function of two coordinates. -/
def zero2q : ℚ → ℚ → ℚ := fun _ _ => 0

/-- The zero source function. -/
def zero3 : ℚ → ℚ → ℚ → ℚ := fun _ _ _ => 0

/-- The constant-one coefficient function `q ≡ 1`. -/
def one2q : ℚ → ℚ → ℚ := fun _ _ => 1

/-- Identity coordinate array `x[i] = i`. -/
def idx : ℕ → ℚ := fun i => (i : ℚ)

/-- Initial condition with a single unit value at coordinates `(1,1)`. -/
def deltaCenter2 : ℚ → ℚ → ℚ := fun a b2 => if a = 1 ∧ b2 = 1 then 1 else 0

/-- Concrete solve: `Nx=Ny=2`, `Lx=Ly=2` (so `x[i]=i`, `dx=dy=1`),
effective `dt=1` (so `Cx2=Cy2=dt2=1`), `b=0`, `I` the indicator of the
center mesh point, `V=0`, `f=0`, `q≡1`. -/
def P2 : Params := ⟨2, 2, 2, 2, 1, 0, deltaCenter2, zero2q, zero3, one2q⟩

/-- The all-zero level sequence (observer-trace tests ignore field data). -/
def zeroU : ℕ → ℕ → ℕ → ℚ := fun _ _ _ => 0

/-- Observer returning a truthy value exactly at step index `k`. -/
def obsAt (k : ℕ) : (ℕ → ℕ → ℚ) → ℕ → Bool := fun _ n2 => n2 == k

/- Helper lemmas. -/

/-- The model square root is exact on squares: `Rat.sqrt 1 = 1`. -/
lemma sqrt_one : Rat.sqrt 1 = 1 := by
  rw [show (1 : ℚ) = 1 * 1 by norm_num, Rat.sqrt_eq]
  norm_num

/-- Concrete stability limit for `dx = 3`, `dy = 4`:
`1/sqrt(1/9 + 1/16) = 12/5`. -/
lemma stab34 : stability_limit 3 4 = 12 / 5 := by
  have hs : Rat.sqrt (1 / (3 : ℚ) ^ 2 + 1 / (4 : ℚ) ^ 2) = 5 / 12 := by
    rw [show (1 / (3 : ℚ) ^ 2 + 1 / (4 : ℚ) ^ 2) = (5 / 12) * (5 / 12) by
      norm_num, Rat.sqrt_eq]
    norm_num
  show (1 / c) * (1 / Rat.sqrt (1 / (3 : ℚ) ^ 2 + 1 / (4 : ℚ) ^ 2)) = 12 / 5
  rw [hs]
  norm_num [c]

/-- Level 0 of the concrete solve `P2` is the indicator of index `(1,1)`. -/
lemma P2_level0 (i j : ℕ) :
    scalarLevels P2 0 i j = if i = 1 ∧ j = 1 then 1 else 0 := by
  show deltaCenter2 (xc P2 i) (yc P2 j) = _
  have hx : ∀ m : ℕ, xc P2 m = (m : ℚ) := by
    intro m
    show (2 : ℚ) * m / (2 : ℕ) = (m : ℚ)
    push_cast
    ring
  have hy : ∀ m : ℕ, yc P2 m = (m : ℚ) := by
    intro m
    show (2 : ℚ) * m / (2 : ℕ) = (m : ℚ)
    push_cast
    ring
  rw [hx, hy]
  simp [deltaCenter2, Nat.cast_eq_one]

/-- Unfolding lemma: level 1 of a scalar solve. -/
lemma scalarLevels_one (P : Params) :
    scalarLevels P 1 = advance_scalar P.Nx P.Ny (scalarLevels P 0)
      (fun _ _ => 0) P.f (xc P) (yc P) (tg P) 0 (Cx2 P) (Cy2 P) P.b P.q
      (dt2 P) P.V true := rfl

/-- Unfolding lemma: level 2 of a scalar solve (loop iteration `n = 1`). -/
lemma scalarLevels_two (P : Params) :
    scalarLevels P 2 = advance_scalar P.Nx P.Ny (scalarLevels P 1)
      (scalarLevels P 0) P.f (xc P) (yc P) (tg P) 1 (Cx2 P) (Cy2 P) P.b P.q
      (dt2 P) P.V true := rfl

/-- Projection values of the concrete solve `P2`. -/
lemma P2_Nx : P2.Nx = 2 := rfl

/-- Projection values of the concrete solve `P2`. -/
lemma P2_Ny : P2.Ny = 2 := rfl

/-- Projection values of the concrete solve `P2`. -/
lemma P2_b : P2.b = 0 := rfl

/-- Projection values of the concrete solve `P2`. -/
lemma P2_f : P2.f = zero3 := rfl

/-- Projection values of the concrete solve `P2`. -/
lemma P2_q : P2.q = one2q := rfl

/-- Projection values of the concrete solve `P2`. -/
lemma P2_V : P2.V = zero2q := rfl

/-- The derived help variables of the concrete solve `P2`. -/
lemma P2_Cx2 : Cx2 P2 = 1 := by
  norm_num [Cx2, dxm, P2, c]

/-- The derived help variables of the concrete solve `P2`. -/
lemma P2_Cy2 : Cy2 P2 = 1 := by
  norm_num [Cy2, dym, P2, c]

/-- The derived help variables of the concrete solve `P2`. -/
lemma P2_dt2 : dt2 P2 = 1 := by
  norm_num [dt2, P2]

/-- Level 1 of `P2` at the center point. -/
lemma P2_level1_c : scalarLevels P2 1 1 1 = 0 := by
  rw [scalarLevels_one, P2_Nx, P2_Ny, P2_b, P2_f, P2_q, P2_V, P2_Cx2,
    P2_Cy2, P2_dt2]
  norm_num [advance_scalar, im, ip, P2_level0, sqrt_one, zero3, zero2q,
    one2q]

/-- Level 1 of `P2` at the four edge-midpoints (value `1/2` at each). -/
lemma P2_level1_e : scalarLevels P2 1 0 1 = 1 / 2 ∧
    scalarLevels P2 1 2 1 = 1 / 2 ∧ scalarLevels P2 1 1 0 = 1 / 2 ∧
    scalarLevels P2 1 1 2 = 1 / 2 := by
  rw [scalarLevels_one, P2_Nx, P2_Ny, P2_b, P2_f, P2_q, P2_V, P2_Cx2,
    P2_Cy2, P2_dt2]
  refine ⟨?_, ?_, ?_, ?_⟩ <;>
    norm_num [advance_scalar, im, ip, P2_level0, sqrt_one, zero3, zero2q,
      one2q]

/-- Claim C2: for every step `n` with `1 ≤ n ≤ Nt−1` of a solve, the field
written at that step is computed with the subsequent-steps coefficient
regime (`D1 = 2/(1+0.5·b·dt)`, `D2 = (1−0.5·b·dt)/(1+0.5·b·dt)`, `Cx2`,
`Cy2` scaled by `0.5/(1+0.5·b·dt)`, `dt²` scaled by `1/(1+0.5·b·dt)`) and
without the initial-velocity term. REFUTED BY THE CODE: line 128 of `w.py`
passes `step1=True` inside the main loop, so every scalar loop step uses
the first-step regime and the subsequent-steps branch (lines 157-161) is
unreachable from `solver`. Concretely, in the solve `P2` the loop step
`n = 1` writes the value `1/2` at the interior point `(1,1)`, whereas the
very same call with `step1=False` — the claimed regime, the code's own
`else` branch — yields `0`. -/
theorem C2_theorem : scalarLevels P2 2 1 1 = 1 / 2 ∧
    advance_scalar P2.Nx P2.Ny (scalarLevels P2 1) (scalarLevels P2 0)
      P2.f (xc P2) (yc P2) (tg P2) 1 (Cx2 P2) (Cy2 P2) P2.b P2.q (dt2 P2)
      P2.V false 1 1 = 0 := by
  constructor
  · rw [scalarLevels_two, P2_Nx, P2_Ny, P2_b, P2_f, P2_q, P2_V, P2_Cx2,
      P2_Cy2, P2_dt2]
    norm_num [advance_scalar, im, ip, P2_level0, P2_level1_c,
      P2_level1_e.1, P2_level1_e.2.1, P2_level1_e.2.2.1,
      P2_level1_e.2.2.2, sqrt_one, zero3, zero2q, one2q]
  · rw [P2_Nx, P2_Ny, P2_b, P2_f, P2_q, P2_V, P2_Cx2, P2_Cy2, P2_dt2]
    norm_num [advance_scalar, im, ip, P2_level0, P2_level1_c,
      P2_level1_e.1, P2_level1_e.2.1, P2_level1_e.2.2.1,
      P2_level1_e.2.2.2, sqrt_one, zero3, zero2q, one2q]

/-- Claim C1 (counterexample): the Pointwise and Bulk stepper variants do
NOT compute the same value at every interior point. On identical inputs
(`Nx=Ny=2`, unit coefficients `Cx2=Cy2=dt2=1`, `b=0`, `q≡1`, `f=0`, regular
regime, current field with a single unit value at `(0,1)`), the scalar
variant gives `1/2` at the interior point `(1,1)` while the vectorized
variant gives `1` (the scalar regular-regime branch multiplies `Cx2, Cy2`
by `0.5/(1+0.5·b·dt)`, the vectorized one leaves them unscaled). -/
theorem C1_counterexample :
    advance_scalar 2 2 uA zero2 zero3 idx idx idx 1 1 1 0 one2q 1 zero2q
      false 1 1 = 1 / 2 ∧
    advance_vectorized 2 2 uA zero2 zero2 1 1 1 zero2 false 1 1 = 1 ∧
    advance_scalar 2 2 uA zero2 zero3 idx idx idx 1 1 1 0 one2q 1 zero2q
      false 1 1 ≠
      advance_vectorized 2 2 uA zero2 zero2 1 1 1 zero2 false 1 1 := by
  refine ⟨?_, ?_, ?_⟩ <;>
    norm_num [advance_scalar, advance_vectorized, im, ip, uA, zero2, zero3,
      zero2q, one2q, idx, sqrt_one]

/-- Claim C1 (amended): the two variants implement different interior
updates. In the regular (non-first-step) regime, on the same prior fields
and with `f_a` the pointwise precompute of `f`, the Bulk interior value
equals the Pointwise value computed with `b = 0`, `q ≡ 1` AND `Cx2`, `Cy2`
doubled — so with identical coefficients the variants differ whenever the
stencil term is nonzero, and a solve run with the two variants does not
yield numerically equivalent fields. -/
theorem C1_theorem (Nx Ny n : ℕ) (u1 u2 : ℕ → ℕ → ℚ)
    (f : ℚ → ℚ → ℚ → ℚ) (x y t : ℕ → ℚ) (Cx2a Cy2a dt2a : ℚ)
    (V : ℚ → ℚ → ℚ) (Va : ℕ → ℕ → ℚ) (i j : ℕ)
    (hi0 : 0 < i) (hiN : i < Nx) (hj0 : 0 < j) (hjN : j < Ny) :
    advance_vectorized Nx Ny u1 u2 (fun a b2 => f (x a) (y b2) (t n))
      Cx2a Cy2a dt2a Va false i j
      = advance_scalar Nx Ny u1 u2 f x y t n (2 * Cx2a) (2 * Cy2a) 0
        (fun _ _ => 1) dt2a V false i j := by
  have hb : ¬(i = 0 ∨ i = Nx ∨ j = 0 ∨ j = Ny) := by
    push_neg
    exact ⟨hi0.ne', hiN.ne, hj0.ne', hjN.ne⟩
  rw [advance_vectorized, if_neg hb]
  rw [advance_scalar, im, ip, im, ip, if_neg hi0.ne', if_neg hiN.ne,
    if_neg hj0.ne', if_neg hjN.ne]
  norm_num
  ring

/-- Witness for C1_theorem at a concrete input. -/
theorem C1_witness :
    advance_vectorized 2 2 uA zero2
      (fun a b2 => zero3 (idx a) (idx b2) (idx 1)) 1 1 1 zero2 false 1 1
      = advance_scalar 2 2 uA zero2 zero3 idx idx idx 1 (2 * 1) (2 * 1) 0
        (fun _ _ => 1) 1 zero2q false 1 1 :=
  C1_theorem 2 2 1 uA zero2 zero3 idx idx idx 1 1 1 zero2q zero2 1 1
    (by norm_num) (by norm_num) (by norm_num) (by norm_num)

/-- Claim C3 (counterexample): in the first time step the scalar stepper
does NOT use `Cx2`, `Cy2` "halved and further scaled by `(1+0.5·b·dt)`".
With `b = 0`, `Cx2 = Cy2 = dt2 = 1`, `q ≡ 1`, `V = f = 0` and the current
field a unit spike at `(1,1)`, the code produces `0` at `(1,1)`, while the
claimed formula — `D1=1`, `D2=0`, stencil weights `0.5·Cx2·(1+0.5·b·dt)`,
source weight `0.5·dt2·(1+0.5·b·dt)`, plus `(1−0.5·b·dt)·dt·V` — written
out below on the same inputs evaluates to `-1` (the code actually quarters
`Cx2`, `Cy2`). -/
theorem C3_counterexample :
    advance_scalar 2 2 uB zero2 zero3 idx idx idx 0 1 1 0 one2q 1 zero2q
      true 1 1 = 0 ∧
    (1 * uB 1 1 - 0 * zero2 1 1
      + (0.5 * 1 * (1 + 0.5 * 0 * 1)) *
          (0.5 * (one2q (idx 1) (idx 1) + one2q (idx 2) (idx 1)) *
              (uB 2 1 - uB 1 1)
            - 0.5 * (one2q (idx 1) (idx 1) + one2q (idx 0) (idx 1)) *
              (uB 1 1 - uB 0 1))
      + (0.5 * 1 * (1 + 0.5 * 0 * 1)) *
          (0.5 * (one2q (idx 1) (idx 1) + one2q (idx 1) (idx 2)) *
              (uB 1 2 - uB 1 1)
            - 0.5 * (one2q (idx 1) (idx 1) + one2q (idx 1) (idx 0)) *
              (uB 1 1 - uB 1 0))
      + (0.5 * 1 * (1 + 0.5 * 0 * 1)) * zero3 (idx 1) (idx 1) (idx 0)
      + (1 - 0.5 * 0 * 1) * 1 * zero2q (idx 1) (idx 1) : ℚ) = -1 ∧
    (0 : ℚ) ≠ -1 := by
  refine ⟨?_, ?_, by norm_num⟩ <;>
    norm_num [advance_scalar, im, ip, uB, zero2, zero3, zero2q, one2q, idx,
      sqrt_one]

/-- Claim C3 (amended): in the first time step (`step1 = true`) the
Pointwise stepper uses `D1 = 1`, `D2 = 0`, multiplies `Cx2` and `Cy2` by
`0.25·(1+0.5·b·dt)` (a quarter, not a half), multiplies `dt²` by
`0.5·(1+0.5·b·dt)`, and adds `(1−0.5·b·dt)·dt·V(x,y)` at every updated
point; the Bulk stepper uses `D1 = 1`, `D2 = 0`, halves `Cx2`, `Cy2`,
`dt²` with no damping scaling at all, and adds `dt·V` at interior points
(its boundary points are zeroed). Stated at interior points. -/
theorem C3_theorem (Nx Ny n : ℕ) (u1 u2 fa Va : ℕ → ℕ → ℚ)
    (f : ℚ → ℚ → ℚ → ℚ) (x y t : ℕ → ℚ) (Cx2a Cy2a b : ℚ)
    (q : ℚ → ℚ → ℚ) (dt2a : ℚ) (V : ℚ → ℚ → ℚ) (i j : ℕ)
    (hi0 : 0 < i) (hiN : i < Nx) (hj0 : 0 < j) (hjN : j < Ny) :
    advance_scalar Nx Ny u1 u2 f x y t n Cx2a Cy2a b q dt2a V true i j
      = u1 i j
        + 0.25 * Cx2a * (1 + 0.5 * b * Rat.sqrt dt2a) *
            (0.5 * (q (x i) (y j) + q (x (i + 1)) (y j)) *
                (u1 (i + 1) j - u1 i j)
              - 0.5 * (q (x i) (y j) + q (x (i - 1)) (y j)) *
                (u1 i j - u1 (i - 1) j))
        + 0.25 * Cy2a * (1 + 0.5 * b * Rat.sqrt dt2a) *
            (0.5 * (q (x i) (y j) + q (x i) (y (j + 1))) *
                (u1 i (j + 1) - u1 i j)
              - 0.5 * (q (x i) (y j) + q (x i) (y (j - 1))) *
                (u1 i j - u1 i (j - 1)))
        + 0.5 * dt2a * (1 + 0.5 * b * Rat.sqrt dt2a) * f (x i) (y j) (t n)
        + (1 - 0.5 * b * Rat.sqrt dt2a) * Rat.sqrt dt2a * V (x i) (y j) ∧
    advance_vectorized Nx Ny u1 u2 fa Cx2a Cy2a dt2a Va true i j
      = u1 i j
        + 0.5 * Cx2a * (u1 (i - 1) j - 2 * u1 i j + u1 (i + 1) j)
        + 0.5 * Cy2a * (u1 i (j - 1) - 2 * u1 i j + u1 i (j + 1))
        + 0.5 * dt2a * fa i j + Rat.sqrt dt2a * Va i j := by
  have hb : ¬(i = 0 ∨ i = Nx ∨ j = 0 ∨ j = Ny) := by
    push_neg
    exact ⟨hi0.ne', hiN.ne, hj0.ne', hjN.ne⟩
  constructor
  · rw [advance_scalar, im, ip, im, ip, if_neg hi0.ne', if_neg hiN.ne,
      if_neg hj0.ne', if_neg hjN.ne]
    norm_num
  · rw [advance_vectorized, if_neg hb]
    norm_num

/-- Witness for C3_theorem at a concrete input. -/
theorem C3_witness :
    advance_scalar 2 2 uB zero2 zero3 idx idx idx 0 1 1 0 one2q 1 zero2q
      true 1 1 = 0 ∧
    advance_vectorized 2 2 uB zero2 zero2 1 1 1 zero2 true 1 1 = -1 := by
  have h := C3_theorem 2 2 0 uB zero2 zero2 zero2 zero3 idx idx idx 1 1 0
    one2q 1 zero2q 1 1 (by norm_num) (by norm_num) (by norm_num)
    (by norm_num)
  exact ⟨h.1.trans (by norm_num [uB, zero2, zero3, zero2q, one2q, idx,
      sqrt_one]),
    h.2.trans (by norm_num [uB, zero2, sqrt_one])⟩

/-- Claim C7: in the Pointwise variant, out-of-range neighbours at the
boundary are replaced by the adjacent interior index: `im 0 = 1` ("left"
neighbour of `i = 0` is `i+1`), `ip Nx Nx = Nx−1` ("right" neighbour of
`i = Nx` is `i−1`), while interior indices use the ordinary neighbours
(the same `im`/`ip` maps serve the `j` axis, so the treatment is symmetric
in `j`). Consequently a boundary point is updated with the mirrored
stencil — written out below for the whole left edge `(0, j)` — rather than
being held at zero; the final conjunct exhibits a concrete solve input
whose updated boundary value is `1/2 ≠ 0`. -/
theorem C7_theorem (Nx Ny n : ℕ) (u1 u2 : ℕ → ℕ → ℚ)
    (f : ℚ → ℚ → ℚ → ℚ) (x y t : ℕ → ℚ) (Cx2a Cy2a b : ℚ)
    (q : ℚ → ℚ → ℚ) (dt2a : ℚ) (V : ℚ → ℚ → ℚ) (s1 : Bool) (i j : ℕ)
    (hNx : 0 < Nx) (hi0 : 0 < i) (hiN : i < Nx) (hj0 : 0 < j)
    (hjN : j < Ny) :
    (im 0 = 1 ∧ ip Nx Nx = Nx - 1 ∧ im i = i - 1 ∧ ip Nx i = i + 1) ∧
    advance_scalar Nx Ny u1 u2 f x y t n Cx2a Cy2a b q dt2a V s1 0 j
      = (if s1 then (1 : ℚ) else 2 / (1 + 0.5 * b * Rat.sqrt dt2a))
          * u1 0 j
        - (if s1 then (0 : ℚ)
            else (1 - 0.5 * b * Rat.sqrt dt2a)
              / (1 + 0.5 * b * Rat.sqrt dt2a)) * u2 0 j
        + (if s1 then 0.25 * Cx2a * (1 + 0.5 * b * Rat.sqrt dt2a)
            else (0.5 / (1 + 0.5 * b * Rat.sqrt dt2a)) * Cx2a) *
            (0.5 * (q (x 0) (y j) + q (x 1) (y j)) * (u1 1 j - u1 0 j)
              - 0.5 * (q (x 0) (y j) + q (x 1) (y j)) * (u1 0 j - u1 1 j))
        + (if s1 then 0.25 * Cy2a * (1 + 0.5 * b * Rat.sqrt dt2a)
            else (0.5 / (1 + 0.5 * b * Rat.sqrt dt2a)) * Cy2a) *
            (0.5 * (q (x 0) (y j) + q (x 0) (y (j + 1))) *
                (u1 0 (j + 1) - u1 0 j)
              - 0.5 * (q (x 0) (y j) + q (x 0) (y (j - 1))) *
                (u1 0 j - u1 0 (j - 1)))
        + (if s1 then 0.5 * dt2a * (1 + 0.5 * b * Rat.sqrt dt2a)
            else dt2a / (1 + 0.5 * b * Rat.sqrt dt2a)) *
            f (x 0) (y j) (t n)
        + (if s1 then
            (1 - 0.5 * b * Rat.sqrt dt2a) * Rat.sqrt dt2a * V (x 0) (y j)
          else 0) ∧
    advance_scalar 2 2 uB zero2 zero3 idx idx idx 0 1 1 0 one2q 1 zero2q
      true 0 1 = 1 / 2 := by
  refine ⟨⟨?_, ?_, ?_, ?_⟩, ?_, ?_⟩
  · rw [im, if_pos rfl]
  · rw [ip, if_pos rfl]
  · rw [im, if_neg hi0.ne']
  · rw [ip, if_neg hiN.ne]
  · rw [advance_scalar, im, ip, im, ip, if_pos rfl,
      if_neg (Ne.symm hNx.ne'), if_neg hj0.ne', if_neg hjN.ne]
  · norm_num [advance_scalar, im, ip, uB, zero2, zero3, zero2q, one2q,
      idx, sqrt_one]

/-- Witness for C7_theorem at a concrete input: `Nx = Ny = 2`, `i = j = 1`;
the mirrored indices at the two ends of the axis, and the nonzero updated
boundary value. -/
theorem C7_witness : im 0 = 1 ∧ ip 2 2 = 1 ∧
    advance_scalar 2 2 uB zero2 zero3 idx idx idx 0 1 1 0 one2q 1 zero2q
      true 0 1 = 1 / 2 := by
  have h := C7_theorem 2 2 0 uB zero2 zero3 idx idx idx 1 1 0 one2q 1
    zero2q true 1 1 (by norm_num) (by norm_num) (by norm_num)
    (by norm_num) (by norm_num)
  exact ⟨h.1.1, h.1.2.1, h.2.2⟩

/-- Boundary rows and columns of the Bulk stepper output are zero (lines
207-215 of `w.py` overwrite them after the interior update). -/
lemma advance_vectorized_boundary (Nx Ny : ℕ) (u1 u2 fa : ℕ → ℕ → ℚ)
    (Cx2a Cy2a dt2a : ℚ) (Va : ℕ → ℕ → ℚ) (s1 : Bool) (i j : ℕ)
    (h : i = 0 ∨ i = Nx ∨ j = 0 ∨ j = Ny) :
    advance_vectorized Nx Ny u1 u2 fa Cx2a Cy2a dt2a Va s1 i j = 0 := by
  rw [advance_vectorized, if_pos h]

/-- Claim C8: at every step `n ≥ 1` of a solve with the Bulk variant,
every entry of the outermost rows and columns of the returned field is
exactly `0`, regardless of the interior update, the source term, or the
damping coefficient (which the Bulk variant never even receives). -/
theorem C8_theorem (P : Params) (n i j : ℕ) (hn : 1 ≤ n)
    (hb : i = 0 ∨ i = P.Nx ∨ j = 0 ∨ j = P.Ny) :
    vectorizedLevels P n i j = 0 := by
  match n, hn with
  | 1, _ =>
    show advance_vectorized P.Nx P.Ny (vectorizedLevels P 0) (fun _ _ => 0)
      (fun i j => P.f (xc P i) (yc P j) (tg P 0)) (Cx2 P) (Cy2 P) (dt2 P)
      (fun i j => P.V (xc P i) (yc P j)) true i j = 0
    exact advance_vectorized_boundary _ _ _ _ _ _ _ _ _ _ _ _ hb
  | m + 2, _ =>
    show advance_vectorized P.Nx P.Ny (vectorizedLevels P (m + 1))
      (vectorizedLevels P m)
      (fun i j => P.f (xc P i) (yc P j) (tg P (m + 1))) (Cx2 P) (Cy2 P)
      (dt2 P) (fun _ _ => 0) false i j = 0
    exact advance_vectorized_boundary _ _ _ _ _ _ _ _ _ _ _ _ hb

/-- Witness for C8_theorem at a concrete input: step 1 of the solve `P2`,
corner `(0,0)`. -/
theorem C8_witness : vectorizedLevels P2 1 0 0 = 0 :=
  C8_theorem P2 1 0 0 (le_refl 1) (Or.inl rfl)

/-- If the observer first returns a truthy value at step index `n0`, the
loop trace starting at index `k < n0` (with enough iterations left) is
exactly the indices `k+1, ..., n0`. -/
lemma loopOut_first_true (obs : (ℕ → ℕ → ℚ) → ℕ → Bool)
    (U : ℕ → ℕ → ℕ → ℚ) :
    ∀ (rem k n0 : ℕ), k < n0 → n0 ≤ k + rem →
      (∀ i2, k < i2 → i2 < n0 → obs (U i2) i2 = false) →
      obs (U n0) n0 = true →
      loopOut obs U k rem = List.range' (k + 1) (n0 - k)
  | 0, k, n0, h1, h2, _, _ => absurd h2 (by omega)
  | rem + 1, k, n0, h1, h2, hf, ht => by
    rw [loopOut]
    by_cases hk : k + 1 = n0
    · have hobs : obs (U (k + 1)) (k + 1) = true := by
        rw [hk]
        exact ht
      rw [hobs, if_pos rfl, show n0 - k = 1 by omega]
      norm_num [List.range']
    · have hlt : k + 1 < n0 := by omega
      have hobs : obs (U (k + 1)) (k + 1) = false :=
        hf (k + 1) (by omega) hlt
      rw [hobs]
      norm_num
      rw [loopOut_first_true obs U rem (k + 1) n0 hlt (by omega)
        (fun i2 a b2 => hf i2 (by omega) b2) ht]
      rw [show n0 - k = (n0 - (k + 1)) + 1 by omega,
        List.range'_succ (k + 1) (n0 - (k + 1)) 1]

/-- Claim C9 (counterexample): an observer that returns a truthy value at
step index `1 < Nt` does NOT terminate the stepping loop: the return
values of the observer calls at indices 0 and 1 (lines 98-99 and 117-118
of `w.py`) are never inspected, so with `Nt = 3` the driver still reports
indices 2 and 3 after the truthy return at index 1. -/
theorem C9_counterexample :
    solverOutputs (obsAt 1) zeroU 3 = [0, 1, 2, 3] := by
  norm_num [solverOutputs, loopOut, obsAt, zeroU]

/-- Claim C9 (amended): only the loop steps check the observer: for every
observer that first returns a truthy value at a step index `n0` with
`2 ≤ n0 ≤ Nt`, the driver stops immediately after that step — the trace of
reported step indices is exactly `0, 1, ..., n0` (so `n0` computed levels
beyond the initial one, and no stepper call or observer invocation after
the truthy return); truthy returns at indices 0 and 1 are ignored. -/
theorem C9_theorem (obs : (ℕ → ℕ → ℚ) → ℕ → Bool) (U : ℕ → ℕ → ℕ → ℚ)
    (Nt n0 : ℕ) (h2 : 2 ≤ n0) (hle : n0 ≤ Nt)
    (hf : ∀ i2, 2 ≤ i2 → i2 < n0 → obs (U i2) i2 = false)
    (ht : obs (U n0) n0 = true) :
    solverOutputs obs U Nt = List.range (n0 + 1) := by
  rw [solverOutputs, loopOut_first_true obs U (Nt - 1) 1 n0 (by omega)
    (by omega) (fun i2 a b2 => hf i2 (by omega) b2) ht]
  rw [List.range_eq_range' (n0 + 1),
    show n0 + 1 = (n0 - 1) + 1 + 1 by omega,
    List.range'_succ 0 ((n0 - 1) + 1) 1,
    List.range'_succ 1 (n0 - 1) 1]

/-- Witness for C9_theorem at a concrete input: observer truthy exactly at
index 2, `Nt = 4`; the trace is `[0, 1, 2] = range 3`. -/
theorem C9_witness : solverOutputs (obsAt 2) zeroU 4 = List.range 3 :=
  C9_theorem (obsAt 2) zeroU 4 2 (le_refl 2) (by omega)
    (fun i2 a b2 => absurd (a.trans_lt b2) (lt_irrefl 2)) rfl

/-- Claim C4: for every pair of spacings and every requested `dt ≤ 0`, the
selector computes `stability_limit = 1/(c·sqrt(1/dx²+1/dy²))` with the
fixed reference speed `c = 1` and sets the effective timestep to
`|dt| · stability_limit` (the negated request is the safety factor), with
no warning reported. -/
theorem C4_theorem (dx dy dtArg : ℚ) (h : dtArg ≤ 0) :
    selectDt (stability_limit dx dy) dtArg
      = (|dtArg| * stability_limit dx dy, false) ∧
    stability_limit dx dy
      = 1 / (c * Rat.sqrt (1 / dx ^ 2 + 1 / dy ^ 2)) := by
  constructor
  · rw [selectDt, if_pos h, abs_of_nonpos h]
  · rw [stability_limit, div_mul_div_comm, one_mul]

/-- Witness for C4_theorem at a concrete input (`dx = 3`, `dy = 4`, so the
limit is the perfect square root `12/5`; requested `dt = -1/2` gives the
effective timestep `6/5`). -/
theorem C4_witness :
    selectDt (stability_limit 3 4) (-(1 / 2)) = (6 / 5, false) := by
  rw [(C4_theorem 3 4 (-(1 / 2)) (by norm_num)).1, stab34]
  norm_num [abs_of_nonneg]

/-- Claim C5: for every requested `dt` above the stability limit, the
solver only reports the warning (the printed message of lines 61-62,
modelled as the Boolean flag) and neither fails nor alters `dt`: the
effective timestep equals the supplied `dt`. -/
theorem C5_theorem (dx dy dtArg : ℚ) (h0 : 0 < dtArg)
    (h1 : stability_limit dx dy < dtArg) :
    selectDt (stability_limit dx dy) dtArg = (dtArg, true) := by
  rw [selectDt, if_neg (not_le.mpr h0), if_pos h1]

/-- Witness for C5_theorem at a concrete input (`dx = 3`, `dy = 4`, limit
`12/5`, requested `dt = 3 > 12/5`). -/
theorem C5_witness : selectDt (stability_limit 3 4) 3 = (3, true) :=
  C5_theorem 3 4 3 (by norm_num) (by rw [stab34]; norm_num)

/-- Claim C6 (counterexample): an invocation with `Lx = -1 ≤ 0` does NOT
fail: the mesh-building stage (lines 45-50 of `w.py`, which contain no
validation at all and no `InvalidMeshError`) succeeds and hands the solve
a mesh with negative spacing `dx = -1`. -/
theorem C6_counterexample : meshOk (buildMesh (-1) 1 1 1) = true ∧
    (buildMesh (-1) 1 1 1).toOption.map Mesh.dx = some (-1) := by
  constructor
  · norm_num [buildMesh, meshOk]
  · norm_num [buildMesh, Except.toOption]

/-- Claim C6 (amended): the mesh-building stage validates nothing about the
geometry: with `Nx < 1` or `Ny < 1` it fails — before any field
computation — with a Python `IndexError` (from reading `x[1]`), not an
`InvalidMeshError` (no such error exists in the code); with `Nx, Ny ≥ 1`
it succeeds for EVERY `Lx`, `Ly`, including `Lx ≤ 0` or `Ly ≤ 0`. -/
theorem C6_theorem (Lx Ly : ℚ) (Nx Ny : ℕ) :
    ((Nx < 1 ∨ Ny < 1) →
      buildMesh Lx Ly Nx Ny = Except.error PyError.indexError) ∧
    (1 ≤ Nx → 1 ≤ Ny →
      buildMesh Lx Ly Nx Ny = Except.ok
        ⟨fun i => Lx * i / Nx, fun j => Ly * j / Ny, Lx / Nx, Ly / Ny⟩) := by
  constructor
  · intro h
    rw [buildMesh, if_pos h]
  · intro h1 h2
    rw [buildMesh, if_neg (by omega)]

/-- Witness for C6_theorem at concrete inputs: `Nx = 0` fails with the
index error; `Lx = -1` with `Nx = Ny = 1` succeeds. -/
theorem C6_witness :
    buildMesh 1 1 0 2 = Except.error PyError.indexError ∧
    buildMesh (-1) 1 1 1 = Except.ok
      ⟨fun i => (-1) * i / (1 : ℕ), fun j => 1 * j / (1 : ℕ),
        (-1) / ((1 : ℕ) : ℚ), 1 / ((1 : ℕ) : ℚ)⟩ :=
  ⟨(C6_theorem 1 1 0 2).1 (by omega),
    (C6_theorem (-1) 1 1 1).2 (by omega) (by omega)⟩

/-- Claim C10: for the input `dt = 0` exactly, the auto-selection branch is
taken (`dt ≤ 0`), the safety factor is `|0| = 0`, the effective timestep is
`0` and no warning fires; the subsequent step-count computation
`Nt = int(round(T/float(dt)))` then divides by zero (a Python
`ZeroDivisionError`), and nothing in the setup rejects `dt = 0` or
substitutes a positive timestep. -/
theorem C10_theorem (Lx Ly : ℚ) (Nx Ny : ℕ) (T : ℚ) (h1 : 1 ≤ Nx)
    (h2 : 1 ≤ Ny) :
    solverSetup Lx Ly Nx Ny 0 T = Except.error PyError.zeroDivisionError ∧
    selectDt (stability_limit (Lx / Nx) (Ly / Ny)) 0 = (0, false) := by
  have hsel : ∀ lim : ℚ, selectDt lim 0 = (0, false) := by
    intro lim
    rw [selectDt, if_pos le_rfl]
    norm_num
  constructor
  · rw [solverSetup, buildMesh, if_neg (by omega)]
    simp only [Except.bind, hsel, computeNt, if_pos]
    rfl
  · exact hsel _

/-- Witness for C10_theorem at a concrete input. -/
theorem C10_witness :
    solverSetup 1 1 1 1 0 5 = Except.error PyError.zeroDivisionError ∧
    selectDt (stability_limit (1 / ((1 : ℕ) : ℚ)) (1 / ((1 : ℕ) : ℚ))) 0
      = (0, false) :=
  C10_theorem 1 1 1 1 5 (le_refl 1) (le_refl 1)

end Wave2D
